import Mathlib

/-!
A shallow embedding of the SwarmRoute adaptive router (Go package
swarmroute).  Go float64 values are modelled as exact rationals.  The
process-wide PRNG draws are passed in as explicit parameters: the
rand.Intn draw of the forced-exploration branch as a natural-number
index, and the rand.Float64 draw of the weighted branch as a rational
(in the real program it lies in [0, 1)).  Go maps are modelled as total
functions: services with an Option codomain, pickCount with the zero
default that a Go map read yields for a missing key.  The mutex and the
background evaporation goroutine are not modelled; evaporateOnce is the
single-step primitive the goroutine calls.
-/

/-- Pheromone holds positive and negative pheromone values for a QoS
dimension (Go struct Pheromone). -/
structure Pheromone where
  pos : ℚ
  neg : ℚ
deriving DecidableEq, Repr

/-- Endpoint represents a service instance with its pheromone metrics
(Go struct Endpoint).  AddService only ever creates the two channels
"latency" and "error", so the Go map from channel name to Pheromone is
embedded as a record with exactly those two fields. -/
structure Endpoint where
  address : String
  latency : Pheromone
  error : Pheromone
deriving DecidableEq, Repr

/-- SwarmRoute holds the pheromone tables and tuning parameters
(Go struct SwarmRoute, minus the mutex). -/
structure SwarmRoute where
  services : String → Option (List Endpoint)
  evaporationRate : ℚ
  posReinforce : ℚ
  negReinforce : ℚ
  reqEvapRate : ℚ
  baseWeight : ℚ
  exploreEveryN : Nat
  exploreNegThreshold : ℚ
  pickCount : String → Nat
  slowThresholdSec : ℚ
  alphaBad : ℚ

/-- NewSwarmRoute: the defaults set by the Go constructor. -/
def NewSwarmRoute : SwarmRoute where
  services := fun _ => none
  evaporationRate := 1 / 20 -- 0.05, 5% evaporation per second
  posReinforce := 1
  negReinforce := 1
  reqEvapRate := 0
  baseWeight := 1 / 10 -- 0.10, the original base exploration weight
  exploreEveryN := 0
  exploreNegThreshold := 3
  pickCount := fun _ => 0
  slowThresholdSec := 0
  alphaBad := 0

/-- SetRequestEvapRate clamps its argument to [0, 1]. -/
def SetRequestEvapRate (sr : SwarmRoute) (r : ℚ) : SwarmRoute :=
  let r1 := if r < 0 then 0 else r
  let r2 := if r1 > 1 then 1 else r1
  { sr with reqEvapRate := r2 }

/-- SetBaseWeight clamps its argument to [0, ∞). -/
def SetBaseWeight (sr : SwarmRoute) (w : ℚ) : SwarmRoute :=
  let w1 := if w < 0 then 0 else w
  { sr with baseWeight := w1 }

/-- SetPosNegScale clamps both scales to [0, ∞). -/
def SetPosNegScale (sr : SwarmRoute) (kpos kneg : ℚ) : SwarmRoute :=
  let kp := if kpos < 0 then 0 else kpos
  let kn := if kneg < 0 then 0 else kneg
  { sr with posReinforce := kp, negReinforce := kn }

/-- SetPeriodicExploration: everyN is a Go int, clamped below at 0;
negThreshold clamped below at 0. -/
def SetPeriodicExploration (sr : SwarmRoute) (everyN : Int) (negThreshold : ℚ) :
    SwarmRoute :=
  let n := if everyN < 0 then 0 else everyN
  let t := if negThreshold < 0 then 0 else negThreshold
  { sr with exploreEveryN := n.toNat, exploreNegThreshold := t }

/-- SetSlowThresholdSec clamps its argument to [0, ∞). -/
def SetSlowThresholdSec (sr : SwarmRoute) (threshold : ℚ) : SwarmRoute :=
  let t := if threshold < 0 then 0 else threshold
  { sr with slowThresholdSec := t }

/-- SetBadPosDecay clamps its argument to [0, 1]. -/
def SetBadPosDecay (sr : SwarmRoute) (alpha : ℚ) : SwarmRoute :=
  let a1 := if alpha < 0 then 0 else alpha
  let a2 := if a1 > 1 then 1 else a1
  { sr with alphaBad := a2 }

/-- A fresh endpoint as built by AddService: both channels at (0, 0). -/
def freshEndpoint (addr : String) : Endpoint where
  address := addr
  latency := { pos := 0, neg := 0 }
  error := { pos := 0, neg := 0 }

/-- AddService registers a service, replacing any previous record under
the same name.  It touches no other field of the router. -/
def AddService (sr : SwarmRoute) (name : String) (endpoints : List String) :
    SwarmRoute :=
  { sr with
    services := fun n =>
      if n = name then some (endpoints.map freshEndpoint) else sr.services n }

/-- Multiply both components of one pheromone by a factor. -/
def scalePher (factor : ℚ) (p : Pheromone) : Pheromone where
  pos := p.pos * factor
  neg := p.neg * factor

/-- Multiply every pheromone of an endpoint (both channels, both
components) by a factor, as the Go evaporation loops do. -/
def scaleEp (factor : ℚ) (ep : Endpoint) : Endpoint :=
  { ep with latency := scalePher factor ep.latency, error := scalePher factor ep.error }

/-- evaporateOnce applies a single evaporation step to all pheromone
values of all endpoints of all services. -/
def evaporateOnce (sr : SwarmRoute) : SwarmRoute :=
  { sr with
    services := fun n =>
      (sr.services n).map (List.map (scaleEp (1 - sr.evaporationRate))) }

/-- The per-request evaporation prelude of ReportResult: when
reqEvapRate > 0, every pheromone of every endpoint of every service is
multiplied by (1 - reqEvapRate) before the report is looked up. -/
def applyReqEvap (sr : SwarmRoute) : SwarmRoute :=
  if 0 < sr.reqEvapRate then
    { sr with
      services := fun n =>
        (sr.services n).map (List.map (scaleEp (1 - sr.reqEvapRate))) }
  else sr

/-- The factor by which the per-request prelude multiplies every
pheromone: (1 - reqEvapRate) when the prelude is enabled, else 1. -/
def reqFactor (sr : SwarmRoute) : ℚ :=
  if 0 < sr.reqEvapRate then 1 - sr.reqEvapRate else 1

/-- The slow-success classification: latency strictly above a positive
slow threshold. -/
def isSlowEvent (sr : SwarmRoute) (latency : ℚ) : Prop :=
  0 < sr.slowThresholdSec ∧ sr.slowThresholdSec < latency

instance (sr : SwarmRoute) (latency : ℚ) : Decidable (isSlowEvent sr latency) :=
  inferInstanceAs (Decidable (_ ∧ _))

/-- The bad-event branch of ReportResult on the target endpoint:
error.neg += negReinforce; if alphaBad > 0, latency.pos *= (1 - alphaBad);
if the event was a (slow) success, error.neg *= (1 - evaporationRate). -/
def badUpdate (sr : SwarmRoute) (success : Bool) (ep : Endpoint) : Endpoint :=
  let neg1 := ep.error.neg + sr.negReinforce
  let pos1 := if 0 < sr.alphaBad then ep.latency.pos * (1 - sr.alphaBad)
              else ep.latency.pos
  let neg2 := if success then neg1 * (1 - sr.evaporationRate) else neg1
  { ep with
    latency := { ep.latency with pos := pos1 }
    error := { ep.error with neg := neg2 } }

/-- The good-event branch of ReportResult on the target endpoint:
latency.pos += posReinforce / (latency + 1e-6);
error.neg *= (1 - evaporationRate). -/
def goodUpdate (sr : SwarmRoute) (latency : ℚ) (ep : Endpoint) : Endpoint :=
  { ep with
    latency := { ep.latency with
                 pos := ep.latency.pos + sr.posReinforce / (latency + 1 / 1000000) }
    error := { ep.error with neg := ep.error.neg * (1 - sr.evaporationRate) } }

/-- The per-endpoint update of ReportResult: bad iff not success or slow. -/
def reportEp (sr : SwarmRoute) (latency : ℚ) (success : Bool) (ep : Endpoint) :
    Endpoint :=
  if success = false ∨ isSlowEvent sr latency then badUpdate sr success ep
  else goodUpdate sr latency ep

/-- Update the first endpoint of the list whose address matches, as the
Go loop with its break does; later duplicates are untouched. -/
def updateFirstMatch (addr : String) (f : Endpoint → Endpoint) :
    List Endpoint → List Endpoint
  | [] => []
  | ep :: rest =>
    if ep.address = addr then f ep :: rest
    else ep :: updateFirstMatch addr f rest

/-- ReportResult: per-request evaporation prelude, then locate the
service; unknown services fall through, known services have the first
endpoint with the reported address updated (unknown addresses leave the
list as it is). -/
def ReportResult (sr : SwarmRoute) (service endpoint : String) (latency : ℚ)
    (success : Bool) : SwarmRoute :=
  let sr1 := applyReqEvap sr
  match sr1.services service with
  | none => sr1
  | some eps =>
    { sr1 with
      services := fun n =>
        if n = service then
          some (updateFirstMatch endpoint (reportEp sr1 latency success) eps)
        else sr1.services n }

/-- The selection weight of one endpoint:
(latency.pos + baseWeight) / (1 + error.neg). -/
def weightOf (baseWeight pos neg : ℚ) : ℚ :=
  (pos + baseWeight) / (1 + neg)

/-- The cumulative-sum scan of the weighted branch: return the first
address whose running total reaches the drawn value r, or none when the
loop falls through. -/
def cumPickAux (r : ℚ) (cum : ℚ) : List (String × ℚ) → Option String
  | [] => none
  | (addr, w) :: rest =>
    if r ≤ cum + w then some addr else cumPickAux r (cum + w) rest

/-- The candidate list of the forced-exploration branch: the endpoints
whose error.neg is at most the threshold, or all endpoints when that
subset is empty. -/
def exploreCands (sr : SwarmRoute) (eps : List Endpoint) : List Endpoint :=
  let candidates := eps.filter (fun ep => ep.error.neg ≤ sr.exploreNegThreshold)
  if candidates.isEmpty then eps else candidates

/-- The address/weight pairs of the weighted branch, in insertion order. -/
def weightPairs (sr : SwarmRoute) (eps : List Endpoint) : List (String × ℚ) :=
  eps.map (fun ep => (ep.address, weightOf sr.baseWeight ep.latency.pos ep.error.neg))

/-- The weighted-random branch: draw r = u * W and scan the cumulative
sums; on fallthrough return the last endpoint in insertion order. -/
def weightedChoice (sr : SwarmRoute) (eps : List Endpoint) (u : ℚ) :
    Except String String :=
  let pairs := weightPairs sr eps
  let total := (pairs.map (fun pr => pr.2)).sum
  match cumPickAux (u * total) 0 pairs with
  | some a => Except.ok a
  | none => Except.ok ((eps.map (fun ep => ep.address)).getLastD "")

/-- The selection made by PickEndpoint once the no-endpoints guard has
passed and the counter has been incremented to newCount.  exploreIdx is
the rand.Intn draw (in the real program strictly below the candidate
count), u the rand.Float64 draw. -/
def pickResult (sr : SwarmRoute) (eps : List Endpoint) (newCount : Nat)
    (exploreIdx : Nat) (u : ℚ) : Except String String :=
  if 0 < sr.exploreEveryN ∧ newCount % sr.exploreEveryN = 0 then
    let cands := exploreCands sr eps
    Except.ok ((cands.getD exploreIdx (cands.headD (freshEndpoint ""))).address)
  else
    weightedChoice sr eps u

/-- PickEndpoint: the no-endpoints guard returns the failure before the
pick counter is touched; otherwise the counter is incremented and the
selection is made from the values held at that moment. -/
def PickEndpoint (sr : SwarmRoute) (service : String) (exploreIdx : Nat)
    (u : ℚ) : SwarmRoute × Except String String :=
  match sr.services service with
  | none => (sr, Except.error ("no endpoints for service " ++ service))
  | some eps =>
    if eps.isEmpty then (sr, Except.error ("no endpoints for service " ++ service))
    else
      let newCount := sr.pickCount service + 1
      let sr1 := { sr with
        pickCount := fun n => if n = service then newCount else sr.pickCount n }
      (sr1, pickResult sr eps newCount exploreIdx u)

/-- PheromoneSnapshot projects, per service, each endpoint's address to
the pair (latency.pos, error.neg); it reads but never mutates. -/
def PheromoneSnapshot (sr : SwarmRoute) :
    String → Option (List (String × Pheromone)) :=
  fun svc =>
    (sr.services svc).map
      (List.map (fun ep => (ep.address, Pheromone.mk ep.latency.pos ep.error.neg)))

/-- Find the first endpoint with the given address (the endpoint the Go
report loop updates). -/
def findEp (addr : String) : List Endpoint → Option Endpoint
  | [] => none
  | ep :: rest => if ep.address = addr then some ep else findEp addr rest

/-- The latency.pos value of the first endpoint with the given address
in the given service, when both exist. -/
def latPosOf (sr : SwarmRoute) (svc addr : String) : Option ℚ :=
  match sr.services svc with
  | none => none
  | some eps => (findEp addr eps).map (fun ep => ep.latency.pos)

/-- The error.neg value of the first endpoint with the given address in
the given service, when both exist. -/
def errNegOf (sr : SwarmRoute) (svc addr : String) : Option ℚ :=
  match sr.services svc with
  | none => none
  | some eps => (findEp addr eps).map (fun ep => ep.error.neg)

/-! ### Projection lemmas for the operations -/

@[simp]
theorem scalePher_pos (f : ℚ) (p : Pheromone) : (scalePher f p).pos = p.pos * f := rfl

@[simp]
theorem scalePher_neg (f : ℚ) (p : Pheromone) : (scalePher f p).neg = p.neg * f := rfl

@[simp]
theorem scaleEp_address (f : ℚ) (ep : Endpoint) : (scaleEp f ep).address = ep.address := rfl

@[simp]
theorem scaleEp_latency (f : ℚ) (ep : Endpoint) :
    (scaleEp f ep).latency = scalePher f ep.latency := rfl

@[simp]
theorem scaleEp_error (f : ℚ) (ep : Endpoint) :
    (scaleEp f ep).error = scalePher f ep.error := rfl

theorem scalePher_one (p : Pheromone) : scalePher 1 p = p := by
  cases p
  simp [scalePher]

theorem scaleEp_one (ep : Endpoint) : scaleEp 1 ep = ep := by
  cases ep
  simp [scaleEp, scalePher_one]

theorem map_scaleEp_one (l : List Endpoint) : l.map (scaleEp 1) = l := by
  induction l with
  | nil => rfl
  | cons ep rest ih => simp [scaleEp_one, ih]

@[simp]
theorem applyReqEvap_services (sr : SwarmRoute) (n : String) :
    (applyReqEvap sr).services n =
      (sr.services n).map (List.map (scaleEp (reqFactor sr))) := by
  unfold applyReqEvap reqFactor
  split
  · rfl
  · cases h : sr.services n <;> simp [map_scaleEp_one]

@[simp]
theorem applyReqEvap_evaporationRate (sr : SwarmRoute) :
    (applyReqEvap sr).evaporationRate = sr.evaporationRate := by
  unfold applyReqEvap; split <;> rfl

@[simp]
theorem applyReqEvap_posReinforce (sr : SwarmRoute) :
    (applyReqEvap sr).posReinforce = sr.posReinforce := by
  unfold applyReqEvap; split <;> rfl

@[simp]
theorem applyReqEvap_negReinforce (sr : SwarmRoute) :
    (applyReqEvap sr).negReinforce = sr.negReinforce := by
  unfold applyReqEvap; split <;> rfl

@[simp]
theorem applyReqEvap_reqEvapRate (sr : SwarmRoute) :
    (applyReqEvap sr).reqEvapRate = sr.reqEvapRate := by
  unfold applyReqEvap; split <;> rfl

@[simp]
theorem applyReqEvap_baseWeight (sr : SwarmRoute) :
    (applyReqEvap sr).baseWeight = sr.baseWeight := by
  unfold applyReqEvap; split <;> rfl

@[simp]
theorem applyReqEvap_exploreEveryN (sr : SwarmRoute) :
    (applyReqEvap sr).exploreEveryN = sr.exploreEveryN := by
  unfold applyReqEvap; split <;> rfl

@[simp]
theorem applyReqEvap_exploreNegThreshold (sr : SwarmRoute) :
    (applyReqEvap sr).exploreNegThreshold = sr.exploreNegThreshold := by
  unfold applyReqEvap; split <;> rfl

@[simp]
theorem applyReqEvap_pickCount (sr : SwarmRoute) :
    (applyReqEvap sr).pickCount = sr.pickCount := by
  unfold applyReqEvap; split <;> rfl

@[simp]
theorem applyReqEvap_slowThresholdSec (sr : SwarmRoute) :
    (applyReqEvap sr).slowThresholdSec = sr.slowThresholdSec := by
  unfold applyReqEvap; split <;> rfl

@[simp]
theorem applyReqEvap_alphaBad (sr : SwarmRoute) :
    (applyReqEvap sr).alphaBad = sr.alphaBad := by
  unfold applyReqEvap; split <;> rfl

@[simp]
theorem ReportResult_evaporationRate (sr : SwarmRoute) (svc a : String) (l : ℚ) (s : Bool) :
    (ReportResult sr svc a l s).evaporationRate = sr.evaporationRate := by
  unfold ReportResult
  cases h : sr.services svc <;> simp [h]

@[simp]
theorem ReportResult_posReinforce (sr : SwarmRoute) (svc a : String) (l : ℚ) (s : Bool) :
    (ReportResult sr svc a l s).posReinforce = sr.posReinforce := by
  unfold ReportResult
  cases h : sr.services svc <;> simp [h]

@[simp]
theorem ReportResult_negReinforce (sr : SwarmRoute) (svc a : String) (l : ℚ) (s : Bool) :
    (ReportResult sr svc a l s).negReinforce = sr.negReinforce := by
  unfold ReportResult
  cases h : sr.services svc <;> simp [h]

@[simp]
theorem ReportResult_reqEvapRate (sr : SwarmRoute) (svc a : String) (l : ℚ) (s : Bool) :
    (ReportResult sr svc a l s).reqEvapRate = sr.reqEvapRate := by
  unfold ReportResult
  cases h : sr.services svc <;> simp [h]

@[simp]
theorem ReportResult_baseWeight (sr : SwarmRoute) (svc a : String) (l : ℚ) (s : Bool) :
    (ReportResult sr svc a l s).baseWeight = sr.baseWeight := by
  unfold ReportResult
  cases h : sr.services svc <;> simp [h]

@[simp]
theorem ReportResult_exploreEveryN (sr : SwarmRoute) (svc a : String) (l : ℚ) (s : Bool) :
    (ReportResult sr svc a l s).exploreEveryN = sr.exploreEveryN := by
  unfold ReportResult
  cases h : sr.services svc <;> simp [h]

@[simp]
theorem ReportResult_exploreNegThreshold (sr : SwarmRoute) (svc a : String) (l : ℚ) (s : Bool) :
    (ReportResult sr svc a l s).exploreNegThreshold = sr.exploreNegThreshold := by
  unfold ReportResult
  cases h : sr.services svc <;> simp [h]

@[simp]
theorem ReportResult_pickCount (sr : SwarmRoute) (svc a : String) (l : ℚ) (s : Bool) :
    (ReportResult sr svc a l s).pickCount = sr.pickCount := by
  unfold ReportResult
  cases h : sr.services svc <;> simp [h]

@[simp]
theorem ReportResult_slowThresholdSec (sr : SwarmRoute) (svc a : String) (l : ℚ) (s : Bool) :
    (ReportResult sr svc a l s).slowThresholdSec = sr.slowThresholdSec := by
  unfold ReportResult
  cases h : sr.services svc <;> simp [h]

@[simp]
theorem ReportResult_alphaBad (sr : SwarmRoute) (svc a : String) (l : ℚ) (s : Bool) :
    (ReportResult sr svc a l s).alphaBad = sr.alphaBad := by
  unfold ReportResult
  cases h : sr.services svc <;> simp [h]

/-- The per-endpoint report update reads only configuration fields, all
of which the prelude preserves. -/
theorem reportEp_applyReqEvap (sr : SwarmRoute) (l : ℚ) (s : Bool) :
    reportEp (applyReqEvap sr) l s = reportEp sr l s := by
  funext ep
  unfold reportEp badUpdate goodUpdate isSlowEvent
  simp

/-- ReportResult on an unregistered service stops after the prelude. -/
theorem ReportResult_services_unknown (sr : SwarmRoute) (svc a : String) (l : ℚ)
    (s : Bool) (hs : sr.services svc = none) (n : String) :
    (ReportResult sr svc a l s).services n =
      (sr.services n).map (List.map (scaleEp (reqFactor sr))) := by
  unfold ReportResult
  simp [hs]

/-- ReportResult on a registered service: the prelude scales every list,
then the first endpoint matching the reported address (if any) in the
reported service is updated. -/
theorem ReportResult_services_known (sr : SwarmRoute) (svc a : String) (l : ℚ)
    (s : Bool) (eps : List Endpoint) (hs : sr.services svc = some eps) (n : String) :
    (ReportResult sr svc a l s).services n =
      if n = svc then
        some (updateFirstMatch a (reportEp sr l s)
          (eps.map (scaleEp (reqFactor sr))))
      else (sr.services n).map (List.map (scaleEp (reqFactor sr))) := by
  unfold ReportResult
  simp [hs, reportEp_applyReqEvap]

/-- PickEndpoint on an unregistered service: the failure, and the state
untouched (the counter is incremented only after the guard). -/
theorem PickEndpoint_unknown (sr : SwarmRoute) (svc : String) (i : Nat) (u : ℚ)
    (hs : sr.services svc = none) :
    PickEndpoint sr svc i u =
      (sr, Except.error ("no endpoints for service " ++ svc)) := by
  unfold PickEndpoint
  simp [hs]

/-- PickEndpoint on a registered service with zero endpoints: the
failure, and the state untouched. -/
theorem PickEndpoint_empty (sr : SwarmRoute) (svc : String) (i : Nat) (u : ℚ)
    (hs : sr.services svc = some []) :
    PickEndpoint sr svc i u =
      (sr, Except.error ("no endpoints for service " ++ svc)) := by
  unfold PickEndpoint
  simp [hs]

/-- PickEndpoint past the guard: the per-service counter is incremented
and the selection is made by pickResult at the incremented count. -/
theorem PickEndpoint_nonempty (sr : SwarmRoute) (svc : String) (i : Nat) (u : ℚ)
    (eps : List Endpoint) (hs : sr.services svc = some eps) (hne : eps ≠ []) :
    PickEndpoint sr svc i u =
      ({ sr with
         pickCount := fun n =>
           if n = svc then sr.pickCount svc + 1 else sr.pickCount n },
       pickResult sr eps (sr.pickCount svc + 1) i u) := by
  unfold PickEndpoint
  simp [hs, List.isEmpty_iff, hne]

/-! ### findEp and updateFirstMatch -/

theorem findEp_address (addr : String) (eps : List Endpoint) (ep : Endpoint)
    (h : findEp addr eps = some ep) : ep.address = addr := by
  induction eps with
  | nil => simp [findEp] at h
  | cons e rest ih =>
    unfold findEp at h
    split at h
    · cases h
      assumption
    · exact ih h

theorem findEp_mem (addr : String) (eps : List Endpoint) (ep : Endpoint)
    (h : findEp addr eps = some ep) : ep ∈ eps := by
  induction eps with
  | nil => simp [findEp] at h
  | cons e rest ih =>
    unfold findEp at h
    split at h
    · cases h
      exact List.mem_cons_self _ _
    · exact List.mem_cons_of_mem e (ih h)

/-- When no endpoint matches, the Go update loop leaves the list as it
found it. -/
theorem updateFirstMatch_of_findEp_none (addr : String) (f : Endpoint → Endpoint)
    (eps : List Endpoint) (h : findEp addr eps = none) :
    updateFirstMatch addr f eps = eps := by
  induction eps with
  | nil => rfl
  | cons e rest ih =>
    unfold findEp at h
    unfold updateFirstMatch
    split at h
    · cases h
    · next hne =>
      rw [if_neg hne, ih h]

/-- Finding after updating: when the update preserves addresses, the
first match of the updated list is the updated first match. -/
theorem findEp_updateFirstMatch (addr : String) (f : Endpoint → Endpoint)
    (haddr : ∀ e, (f e).address = e.address) (eps : List Endpoint) (ep : Endpoint)
    (h : findEp addr eps = some ep) :
    findEp addr (updateFirstMatch addr f eps) = some (f ep) := by
  induction eps with
  | nil => simp [findEp] at h
  | cons e rest ih =>
    unfold findEp at h
    unfold updateFirstMatch
    split at h
    · next heq =>
      cases h
      rw [if_pos heq]
      unfold findEp
      rw [if_pos (by rw [haddr]; exact heq)]
    · next hne =>
      rw [if_neg hne]
      unfold findEp
      rw [if_neg hne]
      exact ih h

/-- Scaling preserves addresses, so finding commutes with it. -/
theorem findEp_map_scaleEp (addr : String) (c : ℚ) (eps : List Endpoint) :
    findEp addr (eps.map (scaleEp c)) = (findEp addr eps).map (scaleEp c) := by
  induction eps with
  | nil => rfl
  | cons e rest ih =>
    simp only [List.map_cons]
    unfold findEp
    by_cases h : e.address = addr
    · rw [if_pos (by simpa using h), if_pos h]
      rfl
    · rw [if_neg (by simpa using h), if_neg h]
      exact ih

/-- Every element of the updated list is an old element or the image of
an old element. -/
theorem mem_updateFirstMatch (addr : String) (f : Endpoint → Endpoint)
    (eps : List Endpoint) (ep' : Endpoint) (h : ep' ∈ updateFirstMatch addr f eps) :
    ep' ∈ eps ∨ ∃ ep, ep ∈ eps ∧ ep' = f ep := by
  induction eps with
  | nil => simp [updateFirstMatch] at h
  | cons e rest ih =>
    unfold updateFirstMatch at h
    split at h
    · rcases List.mem_cons.mp h with h1 | h1
      · exact Or.inr ⟨e, List.mem_cons_self e rest, h1⟩
      · exact Or.inl (List.mem_cons_of_mem e h1)
    · rcases List.mem_cons.mp h with h1 | h1
      · exact Or.inl (h1 ▸ List.mem_cons_self e rest)
      · rcases ih h1 with h2 | ⟨ep, hmem, heq⟩
        · exact Or.inl (List.mem_cons_of_mem e h2)
        · exact Or.inr ⟨ep, List.mem_cons_of_mem e hmem, heq⟩

/-- The address of the reported endpoint is not changed by the update. -/
theorem reportEp_address (sr : SwarmRoute) (l : ℚ) (s : Bool) (ep : Endpoint) :
    (reportEp sr l s ep).address = ep.address := by
  unfold reportEp badUpdate goodUpdate
  split <;> rfl

/-! ### List helpers for the selection lemmas -/

theorem cumPickAux_mem (pairs : List (String × ℚ)) (r cum : ℚ) (a : String)
    (h : cumPickAux r cum pairs = some a) : a ∈ pairs.map Prod.fst := by
  induction pairs generalizing cum with
  | nil => simp [cumPickAux] at h
  | cons p rest ih =>
    unfold cumPickAux at h
    split at h
    · cases h
      simp
    · simp only [List.map_cons, List.mem_cons]
      exact Or.inr (ih _ h)

theorem getLastD_mem (l : List String) (d : String) (h : l ≠ []) :
    l.getLastD d ∈ l := by
  induction l with
  | nil => exact absurd rfl h
  | cons a t ih =>
    cases t with
    | nil => simp
    | cons b t2 =>
      rw [List.getLastD_cons]
      exact List.mem_cons_of_mem a (ih (by simp))

theorem getD_mem_or_eq (l : List Endpoint) (i : Nat) (d : Endpoint) :
    l.getD i d ∈ l ∨ l.getD i d = d := by
  induction l generalizing i with
  | nil => simp
  | cons a t ih =>
    cases i with
    | zero => simp
    | succ j =>
      rw [List.getD_cons_succ]
      rcases ih j with h | h
      · exact Or.inl (List.mem_cons_of_mem a h)
      · exact Or.inr h

theorem getD_headD_mem (l : List Endpoint) (i : Nat) (d : Endpoint) (h : l ≠ []) :
    l.getD i (l.headD d) ∈ l := by
  rcases getD_mem_or_eq l i (l.headD d) with h1 | h1
  · exact h1
  · rw [h1]
    cases l with
    | nil => exact absurd rfl h
    | cons a t => simp

theorem mem_exists_getD (l : List Endpoint) (a d : Endpoint) (h : a ∈ l) :
    ∃ j, j < l.length ∧ l.getD j d = a := by
  induction l with
  | nil => simp at h
  | cons x t ih =>
    rcases List.mem_cons.mp h with h1 | h1
    · exact ⟨0, by simp, by simp [h1.symm]⟩
    · rcases ih h1 with ⟨j, hj, hg⟩
      exact ⟨j + 1, by simpa using hj, by simpa using hg⟩

/-! ### Reachable states and the nonnegativity invariant -/

/-- States reachable from a fresh router by finite sequences of the
public operations (PheromoneSnapshot reads without mutating, so it does
not appear).  P constrains the latency arguments passed to
ReportResult: the spec claim quantifies over every float64 latency
(no constraint), the amended claim over nonnegative latencies. -/
inductive ReachableP (P : ℚ → Prop) : SwarmRoute → Prop where
  | init : ReachableP P NewSwarmRoute
  | add (sr : SwarmRoute) (name : String) (addrs : List String) :
      ReachableP P sr → ReachableP P (AddService sr name addrs)
  | pick (sr : SwarmRoute) (svc : String) (i : Nat) (u : ℚ) :
      ReachableP P sr → ReachableP P (PickEndpoint sr svc i u).1
  | report (sr : SwarmRoute) (svc addr : String) (lat : ℚ) (succ : Bool) :
      ReachableP P sr → P lat → ReachableP P (ReportResult sr svc addr lat succ)
  | evap (sr : SwarmRoute) : ReachableP P sr → ReachableP P (evaporateOnce sr)
  | setReqEvap (sr : SwarmRoute) (r : ℚ) :
      ReachableP P sr → ReachableP P (SetRequestEvapRate sr r)
  | setBase (sr : SwarmRoute) (w : ℚ) :
      ReachableP P sr → ReachableP P (SetBaseWeight sr w)
  | setScale (sr : SwarmRoute) (kp kn : ℚ) :
      ReachableP P sr → ReachableP P (SetPosNegScale sr kp kn)
  | setExplore (sr : SwarmRoute) (n : Int) (t : ℚ) :
      ReachableP P sr → ReachableP P (SetPeriodicExploration sr n t)
  | setSlow (sr : SwarmRoute) (t : ℚ) :
      ReachableP P sr → ReachableP P (SetSlowThresholdSec sr t)
  | setAlpha (sr : SwarmRoute) (a : ℚ) :
      ReachableP P sr → ReachableP P (SetBadPosDecay sr a)

/-- Reachability as the spec intends it: latencies are observed call
durations in seconds, hence nonnegative. -/
def Reachable (sr : SwarmRoute) : Prop := ReachableP (fun l => 0 ≤ l) sr

/-- Reachability exactly as claimed: any float64 latency argument. -/
def ReachableF (sr : SwarmRoute) : Prop := ReachableP (fun _ => True) sr

/-- All four pheromone components of one endpoint are nonnegative. -/
def EpOK (ep : Endpoint) : Prop :=
  0 ≤ ep.latency.pos ∧ 0 ≤ ep.latency.neg ∧ 0 ≤ ep.error.pos ∧ 0 ≤ ep.error.neg

/-- Every pheromone of every endpoint of every service is nonnegative. -/
def PherNonneg (sr : SwarmRoute) : Prop :=
  ∀ svc eps, sr.services svc = some eps → ∀ ep ∈ eps, EpOK ep

/-- The configuration bounds that every reachable state satisfies (the
constructor establishes them and every setter clamps). -/
def ConfigOK (sr : SwarmRoute) : Prop :=
  0 ≤ sr.evaporationRate ∧ sr.evaporationRate ≤ 1 ∧
  0 ≤ sr.reqEvapRate ∧ sr.reqEvapRate ≤ 1 ∧
  0 ≤ sr.posReinforce ∧ 0 ≤ sr.negReinforce ∧
  0 ≤ sr.alphaBad ∧ sr.alphaBad ≤ 1

theorem EpOK_scaleEp (f : ℚ) (ep : Endpoint) (hf : 0 ≤ f) (h : EpOK ep) :
    EpOK (scaleEp f ep) := by
  obtain ⟨h1, h2, h3, h4⟩ := h
  exact ⟨mul_nonneg h1 hf, mul_nonneg h2 hf, mul_nonneg h3 hf, mul_nonneg h4 hf⟩

theorem reqFactor_bounds (sr : SwarmRoute) (h : ConfigOK sr) :
    0 ≤ reqFactor sr ∧ reqFactor sr ≤ 1 := by
  obtain ⟨-, -, h3, h4, -⟩ := h
  unfold reqFactor
  split <;> constructor <;> linarith

/-- The per-endpoint report update preserves nonnegativity for
nonnegative latencies under the configuration bounds. -/
theorem EpOK_reportEp (sr : SwarmRoute) (l : ℚ) (s : Bool) (ep : Endpoint)
    (hcfg : ConfigOK sr) (hl : 0 ≤ l) (h : EpOK ep) : EpOK (reportEp sr l s ep) := by
  obtain ⟨he0, he1, -, -, hp, hn, ha0, ha1⟩ := hcfg
  obtain ⟨h1, h2, h3, h4⟩ := h
  unfold reportEp badUpdate goodUpdate
  split
  · refine ⟨?_, h2, h3, ?_⟩
    · dsimp only
      split
      · exact mul_nonneg h1 (by linarith)
      · exact h1
    · dsimp only
      have hadd : 0 ≤ ep.error.neg + sr.negReinforce := by linarith
      split
      · exact mul_nonneg hadd (by linarith)
      · exact hadd
  · refine ⟨?_, h2, h3, ?_⟩
    · dsimp only
      have : 0 ≤ sr.posReinforce / (l + 1 / 1000000) :=
        div_nonneg hp (by linarith)
      linarith
    · exact mul_nonneg h4 (by linarith)

/-- The two possible post-states of PickEndpoint: the guard failed and
the state is untouched, or only the pick counter changed. -/
theorem PickEndpoint_fst_cases (sr : SwarmRoute) (svc : String) (i : Nat) (u : ℚ) :
    (PickEndpoint sr svc i u).1 = sr ∨
    (PickEndpoint sr svc i u).1 =
      { sr with
        pickCount := fun n =>
          if n = svc then sr.pickCount svc + 1 else sr.pickCount n } := by
  unfold PickEndpoint
  cases h : sr.services svc with
  | none => exact Or.inl rfl
  | some eps =>
    by_cases he : eps.isEmpty
    · simp [he]
    · simp [he]

theorem PherNonneg_map_scale (sr : SwarmRoute) (f : ℚ) (hf : 0 ≤ f)
    (h : PherNonneg sr) (svc : String) (eps : List Endpoint)
    (hs : (sr.services svc).map (List.map (scaleEp f)) = some eps) :
    ∀ ep ∈ eps, EpOK ep := by
  intro ep hmem
  cases h0 : sr.services svc with
  | none => rw [h0] at hs; cases hs
  | some eps0 =>
    rw [h0] at hs
    cases hs
    rcases List.mem_map.mp hmem with ⟨ep0, hmem0, rfl⟩
    exact EpOK_scaleEp f ep0 hf (h svc eps0 h0 ep0 hmem0)

theorem PherNonneg_AddService (sr : SwarmRoute) (name : String)
    (addrs : List String) (h : PherNonneg sr) : PherNonneg (AddService sr name addrs) := by
  intro svc eps hs ep hmem
  unfold AddService at hs
  dsimp only at hs
  by_cases heq : svc = name
  · rw [if_pos heq] at hs
    cases hs
    rcases List.mem_map.mp hmem with ⟨a, -, rfl⟩
    exact ⟨le_refl 0, le_refl 0, le_refl 0, le_refl 0⟩
  · rw [if_neg heq] at hs
    exact h svc eps hs ep hmem

theorem PherNonneg_evaporateOnce (sr : SwarmRoute) (hcfg : ConfigOK sr)
    (h : PherNonneg sr) : PherNonneg (evaporateOnce sr) := by
  intro svc eps hs ep hmem
  unfold evaporateOnce at hs
  dsimp only at hs
  exact PherNonneg_map_scale sr (1 - sr.evaporationRate) (by obtain ⟨-, he1, -⟩ := hcfg; linarith)
    h svc eps hs ep hmem

theorem PherNonneg_ReportResult (sr : SwarmRoute) (svc addr : String) (lat : ℚ)
    (succ : Bool) (hcfg : ConfigOK sr) (hlat : 0 ≤ lat) (h : PherNonneg sr) :
    PherNonneg (ReportResult sr svc addr lat succ) := by
  have hrf : 0 ≤ reqFactor sr := (reqFactor_bounds sr hcfg).1
  intro n eps hs ep hmem
  cases h0 : sr.services svc with
  | none =>
    rw [ReportResult_services_unknown sr svc addr lat succ h0 n] at hs
    exact PherNonneg_map_scale sr (reqFactor sr) hrf h n eps hs ep hmem
  | some eps0 =>
    rw [ReportResult_services_known sr svc addr lat succ eps0 h0 n] at hs
    by_cases heq : n = svc
    · rw [if_pos heq] at hs
      cases hs
      rcases mem_updateFirstMatch addr (reportEp sr lat succ) _ ep hmem with
        hmem1 | ⟨ep1, hmem1, rfl⟩
      · rcases List.mem_map.mp hmem1 with ⟨ep0, hmem0, rfl⟩
        exact EpOK_scaleEp _ ep0 hrf (h svc eps0 h0 ep0 hmem0)
      · rcases List.mem_map.mp hmem1 with ⟨ep0, hmem0, rfl⟩
        exact EpOK_reportEp sr lat succ _ hcfg hlat
          (EpOK_scaleEp _ ep0 hrf (h svc eps0 h0 ep0 hmem0))
    · rw [if_neg heq] at hs
      exact PherNonneg_map_scale sr (reqFactor sr) hrf h n eps hs ep hmem

theorem PherNonneg_PickEndpoint (sr : SwarmRoute) (svc : String) (i : Nat) (u : ℚ)
    (h : PherNonneg sr) : PherNonneg (PickEndpoint sr svc i u).1 := by
  rcases PickEndpoint_fst_cases sr svc i u with h1 | h1 <;>
    · rw [h1]
      exact h

theorem ConfigOK_ReportResult (sr : SwarmRoute) (svc addr : String) (lat : ℚ)
    (succ : Bool) (h : ConfigOK sr) : ConfigOK (ReportResult sr svc addr lat succ) := by
  unfold ConfigOK at h ⊢
  simpa using h

theorem ConfigOK_PickEndpoint (sr : SwarmRoute) (svc : String) (i : Nat) (u : ℚ)
    (h : ConfigOK sr) : ConfigOK (PickEndpoint sr svc i u).1 := by
  rcases PickEndpoint_fst_cases sr svc i u with h1 | h1 <;> rw [h1] <;> exact h

theorem ConfigOK_NewSwarmRoute : ConfigOK NewSwarmRoute := by
  unfold ConfigOK NewSwarmRoute
  norm_num

theorem PherNonneg_NewSwarmRoute : PherNonneg NewSwarmRoute := by
  intro svc eps hs
  cases hs

theorem ConfigOK_SetRequestEvapRate (sr : SwarmRoute) (r : ℚ) (h : ConfigOK sr) :
    ConfigOK (SetRequestEvapRate sr r) := by
  obtain ⟨h1, h2, h3, h4, h5, h6, h7, h8⟩ := h
  unfold ConfigOK SetRequestEvapRate
  dsimp only
  refine ⟨h1, h2, ?_, ?_, h5, h6, h7, h8⟩ <;> (repeat' split) <;> linarith

theorem ConfigOK_SetBaseWeight (sr : SwarmRoute) (w : ℚ) (h : ConfigOK sr) :
    ConfigOK (SetBaseWeight sr w) := by
  obtain ⟨h1, h2, h3, h4, h5, h6, h7, h8⟩ := h
  exact ⟨h1, h2, h3, h4, h5, h6, h7, h8⟩

theorem ConfigOK_SetPosNegScale (sr : SwarmRoute) (kp kn : ℚ) (h : ConfigOK sr) :
    ConfigOK (SetPosNegScale sr kp kn) := by
  obtain ⟨h1, h2, h3, h4, h5, h6, h7, h8⟩ := h
  unfold ConfigOK SetPosNegScale
  dsimp only
  refine ⟨h1, h2, h3, h4, ?_, ?_, h7, h8⟩ <;> (repeat' split) <;> linarith

theorem ConfigOK_SetPeriodicExploration (sr : SwarmRoute) (n : Int) (t : ℚ)
    (h : ConfigOK sr) : ConfigOK (SetPeriodicExploration sr n t) := by
  obtain ⟨h1, h2, h3, h4, h5, h6, h7, h8⟩ := h
  exact ⟨h1, h2, h3, h4, h5, h6, h7, h8⟩

theorem ConfigOK_SetSlowThresholdSec (sr : SwarmRoute) (t : ℚ) (h : ConfigOK sr) :
    ConfigOK (SetSlowThresholdSec sr t) := by
  obtain ⟨h1, h2, h3, h4, h5, h6, h7, h8⟩ := h
  exact ⟨h1, h2, h3, h4, h5, h6, h7, h8⟩

theorem ConfigOK_SetBadPosDecay (sr : SwarmRoute) (a : ℚ) (h : ConfigOK sr) :
    ConfigOK (SetBadPosDecay sr a) := by
  obtain ⟨h1, h2, h3, h4, h5, h6, h7, h8⟩ := h
  unfold ConfigOK SetBadPosDecay
  dsimp only
  refine ⟨h1, h2, h3, h4, h5, h6, ?_, ?_⟩ <;> (repeat' split) <;> linarith

/-- Every state reachable with nonnegative latencies satisfies both the
configuration bounds and pheromone nonnegativity. -/
theorem reachable_inv (sr : SwarmRoute) (h : Reachable sr) :
    ConfigOK sr ∧ PherNonneg sr := by
  induction h with
  | init => exact ⟨ConfigOK_NewSwarmRoute, PherNonneg_NewSwarmRoute⟩
  | add sr name addrs _ ih =>
    refine ⟨?_, PherNonneg_AddService sr name addrs ih.2⟩
    obtain ⟨h1, h2, h3, h4, h5, h6, h7, h8⟩ := ih.1
    exact ⟨h1, h2, h3, h4, h5, h6, h7, h8⟩
  | pick sr svc i u _ ih =>
    exact ⟨ConfigOK_PickEndpoint sr svc i u ih.1,
      PherNonneg_PickEndpoint sr svc i u ih.2⟩
  | report sr svc addr lat succ _ hlat ih =>
    exact ⟨ConfigOK_ReportResult sr svc addr lat succ ih.1,
      PherNonneg_ReportResult sr svc addr lat succ ih.1 hlat ih.2⟩
  | evap sr _ ih =>
    refine ⟨?_, PherNonneg_evaporateOnce sr ih.1 ih.2⟩
    obtain ⟨h1, h2, h3, h4, h5, h6, h7, h8⟩ := ih.1
    exact ⟨h1, h2, h3, h4, h5, h6, h7, h8⟩
  | setReqEvap sr r _ ih =>
    refine ⟨ConfigOK_SetRequestEvapRate sr r ih.1, ?_⟩
    intro n eps hs ep hmem
    exact ih.2 n eps hs ep hmem
  | setBase sr w _ ih =>
    refine ⟨ConfigOK_SetBaseWeight sr w ih.1, ?_⟩
    intro n eps hs ep hmem
    exact ih.2 n eps hs ep hmem
  | setScale sr kp kn _ ih =>
    refine ⟨ConfigOK_SetPosNegScale sr kp kn ih.1, ?_⟩
    intro n eps hs ep hmem
    exact ih.2 n eps hs ep hmem
  | setExplore sr n t _ ih =>
    refine ⟨ConfigOK_SetPeriodicExploration sr n t ih.1, ?_⟩
    intro m eps hs ep hmem
    exact ih.2 m eps hs ep hmem
  | setSlow sr t _ ih =>
    refine ⟨ConfigOK_SetSlowThresholdSec sr t ih.1, ?_⟩
    intro m eps hs ep hmem
    exact ih.2 m eps hs ep hmem
  | setAlpha sr a _ ih =>
    refine ⟨ConfigOK_SetBadPosDecay sr a ih.1, ?_⟩
    intro m eps hs ep hmem
    exact ih.2 m eps hs ep hmem

/-! ### Claim theorems -/

theorem forall₂_map_self {R : Endpoint → Endpoint → Prop} (f : Endpoint → Endpoint)
    (l : List Endpoint) (h : ∀ e ∈ l, R (f e) e) : List.Forall₂ R (l.map f) l := by
  induction l with
  | nil => exact List.Forall₂.nil
  | cons a t ih =>
    exact List.Forall₂.cons (h a (List.mem_cons_self _ _))
      (ih (fun e he => h e (List.mem_cons_of_mem a he)))

/-- Claim C7: after a single evaporateOnce at rate r, every pheromone
value x of every endpoint of every registered service becomes
x * (1 - r): the list keeps its addresses in order and every one of the
four pheromone components is scaled, while the pick counters, every
configuration field, and the set of registered services are unchanged. -/
theorem C7_evaporateOnce (sr : SwarmRoute) (svc : String) (eps : List Endpoint)
    (hs : sr.services svc = some eps) :
    (evaporateOnce sr).services svc =
      some (eps.map (scaleEp (1 - sr.evaporationRate))) ∧
    List.Forall₂ (fun ep' ep =>
      ep'.address = ep.address ∧
      ep'.latency.pos = ep.latency.pos * (1 - sr.evaporationRate) ∧
      ep'.latency.neg = ep.latency.neg * (1 - sr.evaporationRate) ∧
      ep'.error.pos = ep.error.pos * (1 - sr.evaporationRate) ∧
      ep'.error.neg = ep.error.neg * (1 - sr.evaporationRate))
      (eps.map (scaleEp (1 - sr.evaporationRate))) eps ∧
    (evaporateOnce sr).pickCount = sr.pickCount ∧
    (evaporateOnce sr).evaporationRate = sr.evaporationRate ∧
    (evaporateOnce sr).posReinforce = sr.posReinforce ∧
    (evaporateOnce sr).negReinforce = sr.negReinforce ∧
    (evaporateOnce sr).reqEvapRate = sr.reqEvapRate ∧
    (evaporateOnce sr).baseWeight = sr.baseWeight ∧
    (evaporateOnce sr).exploreEveryN = sr.exploreEveryN ∧
    (evaporateOnce sr).exploreNegThreshold = sr.exploreNegThreshold ∧
    (evaporateOnce sr).slowThresholdSec = sr.slowThresholdSec ∧
    (evaporateOnce sr).alphaBad = sr.alphaBad ∧
    (∀ n, sr.services n = none → (evaporateOnce sr).services n = none) := by
  refine ⟨?_, ?_, rfl, rfl, rfl, rfl, rfl, rfl, rfl, rfl, rfl, rfl, ?_⟩
  · unfold evaporateOnce
    dsimp only
    rw [hs]
    rfl
  · exact forall₂_map_self _ eps (fun e _ => ⟨rfl, rfl, rfl, rfl, rfl⟩)
  · intro n hn
    unfold evaporateOnce
    dsimp only
    rw [hn]
    rfl

def c7sr : SwarmRoute := AddService NewSwarmRoute "sv" ["A"]

/-- Witness for C7 at a concrete single-endpoint service. -/
theorem C7_witness :
    (evaporateOnce c7sr).services "sv" =
      some ([freshEndpoint "A"].map (scaleEp (1 - c7sr.evaporationRate))) ∧
    (evaporateOnce c7sr).pickCount = c7sr.pickCount :=
  ⟨(C7_evaporateOnce c7sr "sv" [freshEndpoint "A"] rfl).1,
   (C7_evaporateOnce c7sr "sv" [freshEndpoint "A"] rfl).2.2.1⟩

/-- Claim C10: AddService changes only the endpoint record stored under
the registered name — the per-service pick counters (that of the
registered name included) and every configuration field are untouched,
and every other service's record is untouched, so forced exploration
continues from the pre-registration pick count after a re-registration. -/
theorem C10_addService_frame (sr : SwarmRoute) (name : String) (addrs : List String) :
    (AddService sr name addrs).pickCount = sr.pickCount ∧
    (AddService sr name addrs).services name = some (addrs.map freshEndpoint) ∧
    (∀ other, other ≠ name →
      (AddService sr name addrs).services other = sr.services other) ∧
    (AddService sr name addrs).evaporationRate = sr.evaporationRate ∧
    (AddService sr name addrs).posReinforce = sr.posReinforce ∧
    (AddService sr name addrs).negReinforce = sr.negReinforce ∧
    (AddService sr name addrs).reqEvapRate = sr.reqEvapRate ∧
    (AddService sr name addrs).baseWeight = sr.baseWeight ∧
    (AddService sr name addrs).exploreEveryN = sr.exploreEveryN ∧
    (AddService sr name addrs).exploreNegThreshold = sr.exploreNegThreshold ∧
    (AddService sr name addrs).slowThresholdSec = sr.slowThresholdSec ∧
    (AddService sr name addrs).alphaBad = sr.alphaBad := by
  refine ⟨rfl, ?_, ?_, rfl, rfl, rfl, rfl, rfl, rfl, rfl, rfl, rfl⟩
  · unfold AddService
    dsimp only
    rw [if_pos rfl]
  · intro other hother
    unfold AddService
    dsimp only
    rw [if_neg hother]

def c10sr : SwarmRoute := (PickEndpoint (AddService NewSwarmRoute "a" ["X"]) "a" 0 0).1

/-- Witness for C10: re-registering service "a" (after one pick on it)
keeps all pick counters, and a different registration does not touch
service "a"'s record. -/
theorem C10_witness :
    (AddService c10sr "a" ["X", "Y"]).pickCount = c10sr.pickCount ∧
    (AddService c10sr "b" ["Z"]).services "a" = c10sr.services "a" :=
  ⟨(C10_addService_frame c10sr "a" ["X", "Y"]).1,
   (C10_addService_frame c10sr "b" ["Z"]).2.2.1 "a" (by decide)⟩

theorem latPosOf_eq (sr : SwarmRoute) (svc addr : String) (eps : List Endpoint)
    (hs : sr.services svc = some eps) :
    latPosOf sr svc addr = (findEp addr eps).map (fun ep => ep.latency.pos) := by
  unfold latPosOf
  rw [hs]

theorem errNegOf_eq (sr : SwarmRoute) (svc addr : String) (eps : List Endpoint)
    (hs : sr.services svc = some eps) :
    errNegOf sr svc addr = (findEp addr eps).map (fun ep => ep.error.neg) := by
  unfold errNegOf
  rw [hs]

/-- The pheromones of the reported endpoint after ReportResult: the
prelude factor is applied first, then the per-endpoint update. -/
theorem ReportResult_target (sr : SwarmRoute) (svc addr : String) (lat : ℚ)
    (succ : Bool) (eps : List Endpoint) (ep : Endpoint)
    (hs : sr.services svc = some eps) (hf : findEp addr eps = some ep) :
    latPosOf (ReportResult sr svc addr lat succ) svc addr =
      some ((reportEp sr lat succ (scaleEp (reqFactor sr) ep)).latency.pos) ∧
    errNegOf (ReportResult sr svc addr lat succ) svc addr =
      some ((reportEp sr lat succ (scaleEp (reqFactor sr) ep)).error.neg) := by
  have hsvc : (ReportResult sr svc addr lat succ).services svc =
      some (updateFirstMatch addr (reportEp sr lat succ)
        (eps.map (scaleEp (reqFactor sr)))) := by
    rw [ReportResult_services_known sr svc addr lat succ eps hs svc, if_pos rfl]
  have hfind : findEp addr (updateFirstMatch addr (reportEp sr lat succ)
      (eps.map (scaleEp (reqFactor sr)))) =
      some (reportEp sr lat succ (scaleEp (reqFactor sr) ep)) := by
    apply findEp_updateFirstMatch addr _ (reportEp_address sr lat succ)
    rw [findEp_map_scaleEp, hf]
    rfl
  rw [latPosOf_eq _ svc addr _ hsvc, errNegOf_eq _ svc addr _ hsvc, hfind]
  exact ⟨rfl, rfl⟩

theorem reqFactor_nonneg (sr : SwarmRoute) (hr1 : sr.reqEvapRate ≤ 1) :
    0 ≤ reqFactor sr := by
  unfold reqFactor
  split <;> linarith

theorem reqFactor_le_one (sr : SwarmRoute) (hr0 : 0 ≤ sr.reqEvapRate) :
    reqFactor sr ≤ 1 := by
  unfold reqFactor
  split <;> linarith

/-- Claim C3: a good report (success and not slow) on a registered
endpoint adds posReinforce / (latencySeconds + 1e-6) to its latency.pos
after the per-request prelude factor, multiplies its (prelude-scaled)
error.neg by (1 - evaporationRate), and never increases error.neg. -/
theorem C3_good_report (sr : SwarmRoute) (svc addr : String) (lat : ℚ)
    (eps : List Endpoint) (ep : Endpoint)
    (hs : sr.services svc = some eps)
    (hf : findEp addr eps = some ep)
    (hgood : ¬ isSlowEvent sr lat)
    (he0 : 0 ≤ sr.evaporationRate) (he1 : sr.evaporationRate ≤ 1)
    (hr0 : 0 ≤ sr.reqEvapRate) (hr1 : sr.reqEvapRate ≤ 1)
    (hq0 : 0 ≤ ep.error.neg) :
    latPosOf (ReportResult sr svc addr lat true) svc addr =
      some (ep.latency.pos * reqFactor sr +
        sr.posReinforce / (lat + 1 / 1000000)) ∧
    errNegOf (ReportResult sr svc addr lat true) svc addr =
      some (ep.error.neg * reqFactor sr * (1 - sr.evaporationRate)) ∧
    ep.error.neg * reqFactor sr * (1 - sr.evaporationRate) ≤ ep.error.neg := by
  obtain ⟨h1, h2⟩ := ReportResult_target sr svc addr lat true eps ep hs hf
  have hrep : reportEp sr lat true (scaleEp (reqFactor sr) ep) =
      goodUpdate sr lat (scaleEp (reqFactor sr) ep) := by
    unfold reportEp
    rw [if_neg]
    simp [hgood]
  rw [hrep] at h1 h2
  refine ⟨?_, ?_, ?_⟩
  · rw [h1]
    rfl
  · rw [h2]
    rfl
  · have hf0 := reqFactor_nonneg sr hr1
    have hf1 := reqFactor_le_one sr hr0
    have t0 : 0 ≤ ep.error.neg * reqFactor sr := mul_nonneg hq0 hf0
    have t1 : ep.error.neg * reqFactor sr ≤ ep.error.neg :=
      mul_le_of_le_one_right hq0 hf1
    have t2 : ep.error.neg * reqFactor sr * (1 - sr.evaporationRate) ≤
        ep.error.neg * reqFactor sr :=
      mul_le_of_le_one_right t0 (by linarith)
    linarith

def c3sr : SwarmRoute := AddService NewSwarmRoute "s" ["A"]

/-- Witness for C3: a good report with latency 1 on the fresh endpoint
"A" of service "s". -/
theorem C3_witness :
    latPosOf (ReportResult c3sr "s" "A" 1 true) "s" "A" =
      some ((freshEndpoint "A").latency.pos * reqFactor c3sr +
        c3sr.posReinforce / (1 + 1 / 1000000)) ∧
    errNegOf (ReportResult c3sr "s" "A" 1 true) "s" "A" =
      some ((freshEndpoint "A").error.neg * reqFactor c3sr *
        (1 - c3sr.evaporationRate)) := by
  have h := C3_good_report c3sr "s" "A" 1 [freshEndpoint "A"] (freshEndpoint "A")
    rfl rfl
    (by norm_num [isSlowEvent, c3sr, AddService, NewSwarmRoute])
    (by norm_num [c3sr, AddService, NewSwarmRoute])
    (by norm_num [c3sr, AddService, NewSwarmRoute])
    (by norm_num [c3sr, AddService, NewSwarmRoute])
    (by norm_num [c3sr, AddService, NewSwarmRoute])
    (by norm_num [freshEndpoint])
  exact ⟨h.1, h.2.1⟩

/-- Claim C4: a bad report (failure, or slow success when the slow
threshold is enabled) on a registered endpoint adds negReinforce to its
(prelude-scaled) error.neg, multiplies that sum by
(1 - evaporationRate) exactly when the bad event was a success (slow
success), multiplies its latency.pos by (1 - alphaBad) exactly when
alphaBad > 0, and never increases latency.pos. -/
theorem C4_bad_report (sr : SwarmRoute) (svc addr : String) (lat : ℚ) (succ : Bool)
    (eps : List Endpoint) (ep : Endpoint)
    (hs : sr.services svc = some eps)
    (hf : findEp addr eps = some ep)
    (hbad : succ = false ∨ isSlowEvent sr lat)
    (ha0 : 0 ≤ sr.alphaBad) (ha1 : sr.alphaBad ≤ 1)
    (hr0 : 0 ≤ sr.reqEvapRate) (hr1 : sr.reqEvapRate ≤ 1)
    (hp0 : 0 ≤ ep.latency.pos) :
    errNegOf (ReportResult sr svc addr lat succ) svc addr =
      some (if succ then
              (ep.error.neg * reqFactor sr + sr.negReinforce) *
                (1 - sr.evaporationRate)
            else ep.error.neg * reqFactor sr + sr.negReinforce) ∧
    latPosOf (ReportResult sr svc addr lat succ) svc addr =
      some (if 0 < sr.alphaBad then
              ep.latency.pos * reqFactor sr * (1 - sr.alphaBad)
            else ep.latency.pos * reqFactor sr) ∧
    (∀ p', latPosOf (ReportResult sr svc addr lat succ) svc addr = some p' →
      p' ≤ ep.latency.pos) := by
  obtain ⟨h1, h2⟩ := ReportResult_target sr svc addr lat succ eps ep hs hf
  have hrep : reportEp sr lat succ (scaleEp (reqFactor sr) ep) =
      badUpdate sr succ (scaleEp (reqFactor sr) ep) := by
    unfold reportEp
    rw [if_pos hbad]
  rw [hrep] at h1 h2
  have hf0 := reqFactor_nonneg sr hr1
  have hf1 := reqFactor_le_one sr hr0
  have hposle : (if 0 < sr.alphaBad then
      ep.latency.pos * reqFactor sr * (1 - sr.alphaBad)
      else ep.latency.pos * reqFactor sr) ≤ ep.latency.pos := by
    have t0 : 0 ≤ ep.latency.pos * reqFactor sr := mul_nonneg hp0 hf0
    have t1 : ep.latency.pos * reqFactor sr ≤ ep.latency.pos :=
      mul_le_of_le_one_right hp0 hf1
    split
    · have t2 : ep.latency.pos * reqFactor sr * (1 - sr.alphaBad) ≤
          ep.latency.pos * reqFactor sr :=
        mul_le_of_le_one_right t0 (by linarith)
      linarith
    · exact t1
  have hnegval : (badUpdate sr succ (scaleEp (reqFactor sr) ep)).error.neg =
      if succ then
        (ep.error.neg * reqFactor sr + sr.negReinforce) * (1 - sr.evaporationRate)
      else ep.error.neg * reqFactor sr + sr.negReinforce := by
    cases succ <;> simp [badUpdate]
  have hposval : (badUpdate sr succ (scaleEp (reqFactor sr) ep)).latency.pos =
      if 0 < sr.alphaBad then
        ep.latency.pos * reqFactor sr * (1 - sr.alphaBad)
      else ep.latency.pos * reqFactor sr := by
    by_cases ha : 0 < sr.alphaBad <;> simp [badUpdate, ha]
  refine ⟨?_, ?_, ?_⟩
  · rw [h2, hnegval]
  · rw [h1, hposval]
  · intro p' hp'
    rw [h1, hposval] at hp'
    cases hp'
    exact hposle

def c4sr : SwarmRoute := SetBadPosDecay (AddService NewSwarmRoute "s" ["A"]) (1/2)

/-- Witness for C4: a failure report (latency 0) on the fresh endpoint
"A" of service "s" with alphaBad set to 1/2. -/
theorem C4_witness :
    errNegOf (ReportResult c4sr "s" "A" 0 false) "s" "A" =
      some ((freshEndpoint "A").error.neg * reqFactor c4sr + c4sr.negReinforce) ∧
    latPosOf (ReportResult c4sr "s" "A" 0 false) "s" "A" =
      some (if 0 < c4sr.alphaBad then
              (freshEndpoint "A").latency.pos * reqFactor c4sr * (1 - c4sr.alphaBad)
            else (freshEndpoint "A").latency.pos * reqFactor c4sr) := by
  have h := C4_bad_report c4sr "s" "A" 0 false [freshEndpoint "A"] (freshEndpoint "A")
    rfl rfl (Or.inl rfl)
    (by norm_num [c4sr, SetBadPosDecay, AddService, NewSwarmRoute])
    (by norm_num [c4sr, SetBadPosDecay, AddService, NewSwarmRoute])
    (by norm_num [c4sr, SetBadPosDecay, AddService, NewSwarmRoute])
    (by norm_num [c4sr, SetBadPosDecay, AddService, NewSwarmRoute])
    (by norm_num [freshEndpoint])
  exact ⟨h.1, h.2.1⟩

def c5sr : SwarmRoute := SetSlowThresholdSec (AddService NewSwarmRoute "s" ["A"]) 1

/-- Counterexample to claim C5 as stated: with the slow threshold at 1
second, a slow success (latency 2, success) is a bad report, yet
error.neg goes from 0 to (0 + negReinforce) * (1 - evaporationRate) =
19/20, not to 0 + negReinforce = 1: the increase is not exactly
negReinforce. -/
theorem C5_counterexample :
    (0 < c5sr.slowThresholdSec ∧ c5sr.slowThresholdSec < 2) ∧
    errNegOf c5sr "s" "A" = some 0 ∧
    c5sr.negReinforce = 1 ∧
    errNegOf (ReportResult c5sr "s" "A" 2 true) "s" "A" = some (19/20) ∧
    (19 : ℚ)/20 ≠ 0 + 1 := by
  refine ⟨?_, rfl, rfl, ?_, by norm_num⟩
  · constructor <;> norm_num [c5sr, SetSlowThresholdSec, AddService, NewSwarmRoute]
  · have h := (ReportResult_target c5sr "s" "A" 2 true [freshEndpoint "A"]
      (freshEndpoint "A") rfl rfl).2
    rw [h]
    norm_num [reportEp, badUpdate, isSlowEvent, scaleEp, scalePher, freshEndpoint,
      reqFactor, c5sr, SetSlowThresholdSec, AddService, NewSwarmRoute]

/-- Claim C5 amended: after a failed report (success = false, which is
always bad) on a registered endpoint, with per-request evaporation
disabled, error.neg increases by exactly negReinforce — strictly when
negReinforce > 0.  (A slow success multiplies the sum by
1 - evaporationRate, and an enabled prelude rescales the old value
first, so the exact-increment law holds only in this form.) -/
theorem C5_amended_failure (sr : SwarmRoute) (svc addr : String) (lat : ℚ)
    (eps : List Endpoint) (ep : Endpoint)
    (hs : sr.services svc = some eps)
    (hf : findEp addr eps = some ep)
    (hreq : sr.reqEvapRate = 0) :
    errNegOf (ReportResult sr svc addr lat false) svc addr =
      some (ep.error.neg + sr.negReinforce) ∧
    (0 < sr.negReinforce →
      ∀ q', errNegOf (ReportResult sr svc addr lat false) svc addr = some q' →
        ep.error.neg < q') := by
  have h2 := (ReportResult_target sr svc addr lat false eps ep hs hf).2
  have hfone : reqFactor sr = 1 := by
    unfold reqFactor
    rw [hreq]
    norm_num
  have hval : (reportEp sr lat false (scaleEp (reqFactor sr) ep)).error.neg =
      ep.error.neg + sr.negReinforce := by
    rw [hfone, scaleEp_one]
    unfold reportEp
    rw [if_pos (Or.inl rfl)]
    simp [badUpdate]
  rw [hval] at h2
  refine ⟨h2, ?_⟩
  intro hpos q' hq'
  rw [h2] at hq'
  cases hq'
  linarith

def c5wsr : SwarmRoute := AddService NewSwarmRoute "w" ["A"]

/-- Witness for the amended C5: one failure on a fresh endpoint takes
error.neg from 0 to 0 + negReinforce. -/
theorem C5_witness :
    errNegOf (ReportResult c5wsr "w" "A" 0 false) "w" "A" =
      some ((freshEndpoint "A").error.neg + c5wsr.negReinforce) ∧
    (freshEndpoint "A").error.neg <
      (freshEndpoint "A").error.neg + c5wsr.negReinforce := by
  have h := C5_amended_failure c5wsr "w" "A" 0 [freshEndpoint "A"]
    (freshEndpoint "A") rfl rfl rfl
  refine ⟨h.1, ?_⟩
  have := h.2 (by norm_num [c5wsr, AddService, NewSwarmRoute]) _ h.1
  exact this

theorem SwarmRoute.ext' (a b : SwarmRoute)
    (h1 : ∀ n, a.services n = b.services n)
    (h2 : a.evaporationRate = b.evaporationRate)
    (h3 : a.posReinforce = b.posReinforce)
    (h4 : a.negReinforce = b.negReinforce)
    (h5 : a.reqEvapRate = b.reqEvapRate)
    (h6 : a.baseWeight = b.baseWeight)
    (h7 : a.exploreEveryN = b.exploreEveryN)
    (h8 : a.exploreNegThreshold = b.exploreNegThreshold)
    (h9 : ∀ n, a.pickCount n = b.pickCount n)
    (h10 : a.slowThresholdSec = b.slowThresholdSec)
    (h11 : a.alphaBad = b.alphaBad) : a = b := by
  cases a
  cases b
  simp only [SwarmRoute.mk.injEq]
  exact ⟨funext h1, h2, h3, h4, h5, h6, h7, h8, funext h9, h10, h11⟩

theorem map_scaleEp_reqFactor_of_zero (sr : SwarmRoute) (hreq : sr.reqEvapRate = 0)
    (o : Option (List Endpoint)) :
    o.map (List.map (scaleEp (reqFactor sr))) = o := by
  have hfone : reqFactor sr = 1 := by
    unfold reqFactor
    rw [hreq]
    norm_num
  rw [hfone]
  cases o with
  | none => rfl
  | some l => simp [map_scaleEp_one]

/-- Claim C1 amended: ReportResult on an unknown service, or on a known
service that holds no endpoint with the reported address, leaves the
state unchanged except for the per-request evaporation prelude: every
service list is scaled by the prelude factor and nothing else changes;
in particular, when reqEvapRate = 0 the call is a complete no-op. -/
theorem C1_amended_noop_modulo_prelude (sr : SwarmRoute) (svc addr : String)
    (lat : ℚ) (succ : Bool)
    (h : sr.services svc = none ∨
      ∃ eps, sr.services svc = some eps ∧ findEp addr eps = none) :
    (∀ n, (ReportResult sr svc addr lat succ).services n =
      (sr.services n).map (List.map (scaleEp (reqFactor sr)))) ∧
    (ReportResult sr svc addr lat succ).pickCount = sr.pickCount ∧
    (ReportResult sr svc addr lat succ).evaporationRate = sr.evaporationRate ∧
    (ReportResult sr svc addr lat succ).posReinforce = sr.posReinforce ∧
    (ReportResult sr svc addr lat succ).negReinforce = sr.negReinforce ∧
    (ReportResult sr svc addr lat succ).reqEvapRate = sr.reqEvapRate ∧
    (ReportResult sr svc addr lat succ).baseWeight = sr.baseWeight ∧
    (ReportResult sr svc addr lat succ).exploreEveryN = sr.exploreEveryN ∧
    (ReportResult sr svc addr lat succ).exploreNegThreshold = sr.exploreNegThreshold ∧
    (ReportResult sr svc addr lat succ).slowThresholdSec = sr.slowThresholdSec ∧
    (ReportResult sr svc addr lat succ).alphaBad = sr.alphaBad ∧
    (sr.reqEvapRate = 0 → ReportResult sr svc addr lat succ = sr) := by
  have hserv : ∀ n, (ReportResult sr svc addr lat succ).services n =
      (sr.services n).map (List.map (scaleEp (reqFactor sr))) := by
    intro n
    rcases h with hnone | ⟨eps, hsome, hfind⟩
    · exact ReportResult_services_unknown sr svc addr lat succ hnone n
    · rw [ReportResult_services_known sr svc addr lat succ eps hsome n]
      by_cases heq : n = svc
      · rw [if_pos heq, heq, hsome]
        have hfind2 : findEp addr (eps.map (scaleEp (reqFactor sr))) = none := by
          rw [findEp_map_scaleEp, hfind]
          rfl
        rw [updateFirstMatch_of_findEp_none addr _ _ hfind2]
        rfl
      · rw [if_neg heq]
  refine ⟨hserv, ReportResult_pickCount sr svc addr lat succ,
    ReportResult_evaporationRate sr svc addr lat succ,
    ReportResult_posReinforce sr svc addr lat succ,
    ReportResult_negReinforce sr svc addr lat succ,
    ReportResult_reqEvapRate sr svc addr lat succ,
    ReportResult_baseWeight sr svc addr lat succ,
    ReportResult_exploreEveryN sr svc addr lat succ,
    ReportResult_exploreNegThreshold sr svc addr lat succ,
    ReportResult_slowThresholdSec sr svc addr lat succ,
    ReportResult_alphaBad sr svc addr lat succ, ?_⟩
  intro hreq
  refine SwarmRoute.ext' _ _ ?_ (by simp) (by simp) (by simp) (by simp) (by simp)
    (by simp) (by simp) (by simp) (by simp) (by simp)
  intro n
  rw [hserv n, map_scaleEp_reqFactor_of_zero sr hreq]

def c1wsr : SwarmRoute := AddService NewSwarmRoute "s" ["A"]

/-- Witness for the amended C1: with the per-request prelude disabled
(the default), a report against an unknown service is a complete no-op. -/
theorem C1_witness :
    ReportResult c1wsr "t" "X" 1 true = c1wsr :=
  (C1_amended_noop_modulo_prelude c1wsr "t" "X" 1 true (Or.inl rfl)).2.2.2.2.2.2.2.2.2.2.2 rfl

def c1sr : SwarmRoute :=
  SetRequestEvapRate (ReportResult (AddService NewSwarmRoute "s" ["A"]) "s" "A" 0 false) (1/2)

/-- Counterexample to claim C1 as stated: with reqEvapRate = 1/2 and an
accumulated error.neg of 1 on endpoint "A" of service "s", reporting
against the unknown service "t" changes the state — the prelude halves
every pheromone, so error.neg drops from 1 to 1/2. -/
theorem C1_counterexample :
    c1sr.reqEvapRate = 1/2 ∧
    c1sr.services "t" = none ∧
    errNegOf c1sr "s" "A" = some 1 ∧
    errNegOf (ReportResult c1sr "t" "X" 0 false) "s" "A" = some (1/2) ∧
    ((1 : ℚ)/2) ≠ 1 := by
  have hrr : c1sr.reqEvapRate = 1/2 := by
    norm_num [c1sr, SetRequestEvapRate]
  have ht : c1sr.services "t" = none := by
    show (ReportResult (AddService NewSwarmRoute "s" ["A"]) "s" "A" 0 false).services "t" = none
    rw [ReportResult_services_known _ "s" "A" 0 false [freshEndpoint "A"] rfl "t",
      if_neg (by decide : ¬("t" = "s"))]
    rfl
  have hneg1 : errNegOf c1sr "s" "A" = some 1 := by
    show errNegOf (ReportResult (AddService NewSwarmRoute "s" ["A"]) "s" "A" 0 false) "s" "A" = some 1
    have h := (ReportResult_target (AddService NewSwarmRoute "s" ["A"]) "s" "A" 0 false
      [freshEndpoint "A"] (freshEndpoint "A") rfl rfl).2
    rw [h]
    norm_num [reportEp, badUpdate, isSlowEvent, reqFactor, scaleEp, scalePher,
      freshEndpoint, AddService, NewSwarmRoute]
  have hs1 : c1sr.services "s" =
      some [Endpoint.mk "A" (Pheromone.mk 0 0) (Pheromone.mk 0 1)] := by
    show (ReportResult (AddService NewSwarmRoute "s" ["A"]) "s" "A" 0 false).services "s" = _
    rw [ReportResult_services_known _ "s" "A" 0 false [freshEndpoint "A"] rfl "s", if_pos rfl]
    norm_num [updateFirstMatch, reportEp, badUpdate, isSlowEvent, reqFactor,
      scaleEp, scalePher, freshEndpoint, AddService, NewSwarmRoute]
  refine ⟨hrr, ht, hneg1, ?_, by norm_num⟩
  have hserv := ReportResult_services_unknown c1sr "t" "X" 0 false ht "s"
  unfold errNegOf
  rw [hserv, hs1]
  have hf2 : reqFactor c1sr = 1/2 := by
    unfold reqFactor
    rw [hrr]
    norm_num
  rw [hf2]
  norm_num [findEp, scaleEp, scalePher]

def c2sr : SwarmRoute :=
  ReportResult (AddService NewSwarmRoute "s" ["A"]) "s" "A" (-1) true

/-- Counterexample to claim C2 as stated: with an arbitrary float64
latency allowed, a good report with latency -1 is reachable and drives
latency.pos to 1 / (-1 + 1e-6) = -1000000/999999 < 0. -/
theorem C2_counterexample :
    ReachableF c2sr ∧
    latPosOf c2sr "s" "A" = some (-(1000000/999999 : ℚ)) ∧
    (-(1000000/999999 : ℚ)) < 0 := by
  refine ⟨?_, ?_, by norm_num⟩
  · exact ReachableP.report _ "s" "A" (-1) true
      (ReachableP.add _ "s" ["A"] ReachableP.init) trivial
  · have h := (ReportResult_target (AddService NewSwarmRoute "s" ["A"]) "s" "A" (-1)
      true [freshEndpoint "A"] (freshEndpoint "A") rfl rfl).1
    rw [show latPosOf c2sr "s" "A" =
      latPosOf (ReportResult (AddService NewSwarmRoute "s" ["A"]) "s" "A" (-1) true)
        "s" "A" from rfl, h]
    norm_num [reportEp, goodUpdate, badUpdate, isSlowEvent, reqFactor, scaleEp,
      scalePher, freshEndpoint, AddService, NewSwarmRoute]

/-- Claim C2 amended: in every state reachable from a fresh router by
the public operations with nonnegative latency reports, every pheromone
component of every endpoint of every service is nonnegative.  (A
negative latency argument breaks this, see the counterexample.) -/
theorem C2_amended_nonneg_invariant (sr : SwarmRoute) (h : Reachable sr)
    (svc : String) (eps : List Endpoint) (hs : sr.services svc = some eps)
    (ep : Endpoint) (hmem : ep ∈ eps) :
    0 ≤ ep.latency.pos ∧ 0 ≤ ep.latency.neg ∧
    0 ≤ ep.error.pos ∧ 0 ≤ ep.error.neg :=
  (reachable_inv sr h).2 svc eps hs ep hmem

/-- Witness for the amended C2 at a concrete reachable state. -/
theorem C2_witness :
    0 ≤ (freshEndpoint "A").latency.pos ∧ 0 ≤ (freshEndpoint "A").latency.neg ∧
    0 ≤ (freshEndpoint "A").error.pos ∧ 0 ≤ (freshEndpoint "A").error.neg :=
  C2_amended_nonneg_invariant (AddService NewSwarmRoute "s" ["A"])
    (ReachableP.add _ "s" ["A"] ReachableP.init) "s" [freshEndpoint "A"] rfl
    (freshEndpoint "A") (List.mem_cons_self _ _)

theorem exploreCands_ne_nil (sr : SwarmRoute) (eps : List Endpoint) (hne : eps ≠ []) :
    exploreCands sr eps ≠ [] := by
  unfold exploreCands
  dsimp only
  split
  · exact hne
  · next hemp =>
    intro hnil
    rw [hnil] at hemp
    exact hemp rfl

theorem exploreCands_subset (sr : SwarmRoute) (eps : List Endpoint) (ep : Endpoint)
    (h : ep ∈ exploreCands sr eps) : ep ∈ eps := by
  unfold exploreCands at h
  dsimp only at h
  split at h
  · exact h
  · exact (List.mem_filter.mp h).1

theorem weightedChoice_mem (sr : SwarmRoute) (eps : List Endpoint) (u : ℚ)
    (hne : eps ≠ []) :
    ∃ ep, ep ∈ eps ∧ weightedChoice sr eps u = Except.ok ep.address := by
  unfold weightedChoice
  dsimp only
  cases hcp : cumPickAux (u * ((weightPairs sr eps).map (fun pr => pr.2)).sum) 0
      (weightPairs sr eps) with
  | some a =>
    have hmem := cumPickAux_mem _ _ _ _ hcp
    have : (weightPairs sr eps).map Prod.fst = eps.map (fun ep => ep.address) := by
      unfold weightPairs
      rw [List.map_map]
      rfl
    rw [this] at hmem
    rcases List.mem_map.mp hmem with ⟨ep, hmem2, rfl⟩
    exact ⟨ep, hmem2, rfl⟩
  | none =>
    have hmn : eps.map (fun ep => ep.address) ≠ [] := by
      intro hnil
      exact hne (List.map_eq_nil.mp hnil)
    have hmem := getLastD_mem (eps.map (fun ep => ep.address)) "" hmn
    rcases List.mem_map.mp hmem with ⟨ep, hmem2, heq⟩
    exact ⟨ep, hmem2, by rw [← heq]⟩

theorem pickResult_mem (sr : SwarmRoute) (eps : List Endpoint) (c i : Nat) (u : ℚ)
    (hne : eps ≠ []) :
    ∃ ep, ep ∈ eps ∧ pickResult sr eps c i u = Except.ok ep.address := by
  unfold pickResult
  dsimp only
  split
  · have hcne := exploreCands_ne_nil sr eps hne
    have hmem := getD_headD_mem (exploreCands sr eps) i (freshEndpoint "") hcne
    exact ⟨(exploreCands sr eps).getD i ((exploreCands sr eps).headD (freshEndpoint "")),
      exploreCands_subset sr eps _ hmem, rfl⟩
  · exact weightedChoice_mem sr eps u hne

/-- Claim C9: PickEndpoint fails exactly on unknown services and
registered-but-empty services, with the message naming the service; in
every other case it returns the address of one of the service's
registered endpoints, whatever the two random draws are. -/
theorem C9_error_surface (sr : SwarmRoute) (svc : String) (i : Nat) (u : ℚ) :
    ((sr.services svc = none ∨ sr.services svc = some []) →
      (PickEndpoint sr svc i u).2 =
        Except.error ("no endpoints for service " ++ svc)) ∧
    (∀ eps, sr.services svc = some eps → eps ≠ [] →
      ∃ ep, ep ∈ eps ∧ (PickEndpoint sr svc i u).2 = Except.ok ep.address) := by
  constructor
  · intro h
    rcases h with h | h
    · rw [PickEndpoint_unknown sr svc i u h]
    · rw [PickEndpoint_empty sr svc i u h]
  · intro eps hs hne
    rw [PickEndpoint_nonempty sr svc i u eps hs hne]
    exact pickResult_mem sr eps (sr.pickCount svc + 1) i u hne

def c9sr : SwarmRoute := AddService NewSwarmRoute "s" ["A"]

/-- Witness for C9: the unknown service "x" yields the failure naming
"x"; the registered service "s" yields the address of a registered
endpoint. -/
theorem C9_witness :
    (PickEndpoint c9sr "x" 0 0).2 =
      Except.error ("no endpoints for service " ++ "x") ∧
    (∃ ep, ep ∈ [freshEndpoint "A"] ∧
      (PickEndpoint c9sr "s" 0 0).2 = Except.ok ep.address) :=
  ⟨(C9_error_surface c9sr "x" 0 0).1 (Or.inl rfl),
   (C9_error_surface c9sr "s" 0 0).2 [freshEndpoint "A"] rfl (by simp)⟩

def c8sr : SwarmRoute := SetPeriodicExploration (AddService NewSwarmRoute "s" []) 5 3

/-- Counterexample to claim C8 as stated: with exploreEveryN = 5, a
PickEndpoint call on the registered-but-empty service "s" fails the
no-endpoints guard before the counter increment, so the per-service
pick counter does not increment on that call. -/
theorem C8_counterexample :
    0 < c8sr.exploreEveryN ∧
    c8sr.services "s" = some [] ∧
    c8sr.pickCount "s" = 0 ∧
    ((PickEndpoint c8sr "s" 0 0).1).pickCount "s" = 0 := by
  refine ⟨by decide, rfl, rfl, ?_⟩
  rw [PickEndpoint_empty c8sr "s" 0 0 rfl]
  rfl

/-- Claim C8 amended: on a PickEndpoint call that passes the
no-endpoints guard, with exploreEveryN > 0, the service's pick counter
increments by one (others unchanged), and exactly when the incremented
count is divisible by exploreEveryN the selection is the uniform draw
over exploreCands — the endpoints with error.neg at most the threshold,
or all endpoints when none qualify: the draw at index i below the
candidate count returns the i-th candidate, every candidate is returned
at some index, and on a non-divisible count the selection is the
weighted-random choice instead. -/
theorem C8_amended_exploration (sr : SwarmRoute) (svc : String) (i : Nat) (u : ℚ)
    (eps : List Endpoint) (hs : sr.services svc = some eps) (hne : eps ≠ [])
    (hN : 0 < sr.exploreEveryN) :
    ((PickEndpoint sr svc i u).1).pickCount svc = sr.pickCount svc + 1 ∧
    (∀ other, other ≠ svc →
      ((PickEndpoint sr svc i u).1).pickCount other = sr.pickCount other) ∧
    ((sr.pickCount svc + 1) % sr.exploreEveryN = 0 →
      (i < (exploreCands sr eps).length →
        (PickEndpoint sr svc i u).2 =
          Except.ok (((exploreCands sr eps).getD i
            ((exploreCands sr eps).headD (freshEndpoint ""))).address)) ∧
      (∀ ep ∈ exploreCands sr eps, ∃ j,
        (PickEndpoint sr svc j u).2 = Except.ok ep.address)) ∧
    ((sr.pickCount svc + 1) % sr.exploreEveryN ≠ 0 →
      (PickEndpoint sr svc i u).2 = weightedChoice sr eps u) := by
  refine ⟨?_, ?_, ?_, ?_⟩
  · rw [PickEndpoint_nonempty sr svc i u eps hs hne]
    dsimp only
    rw [if_pos rfl]
  · intro other hother
    rw [PickEndpoint_nonempty sr svc i u eps hs hne]
    dsimp only
    rw [if_neg hother]
  · intro hdiv
    constructor
    · intro _
      rw [PickEndpoint_nonempty sr svc i u eps hs hne]
      show pickResult sr eps (sr.pickCount svc + 1) i u = _
      unfold pickResult
      rw [if_pos ⟨hN, hdiv⟩]
    · intro ep hep
      obtain ⟨j, -, hg⟩ := mem_exists_getD (exploreCands sr eps) ep
        ((exploreCands sr eps).headD (freshEndpoint "")) hep
      refine ⟨j, ?_⟩
      rw [PickEndpoint_nonempty sr svc j u eps hs hne]
      show pickResult sr eps (sr.pickCount svc + 1) j u = _
      unfold pickResult
      rw [if_pos ⟨hN, hdiv⟩]
      dsimp only
      rw [hg]
  · intro hndiv
    rw [PickEndpoint_nonempty sr svc i u eps hs hne]
    show pickResult sr eps (sr.pickCount svc + 1) i u = _
    unfold pickResult
    rw [if_neg (fun hc => hndiv hc.2)]

def c8wsr : SwarmRoute :=
  SetPeriodicExploration (AddService NewSwarmRoute "s" ["A", "B"]) 1 3

/-- Witness for the amended C8: with exploreEveryN = 1 every pick
explores; the counter increments and index 0 returns the first
non-terrible candidate. -/
theorem C8_witness :
    ((PickEndpoint c8wsr "s" 0 0).1).pickCount "s" = c8wsr.pickCount "s" + 1 ∧
    (PickEndpoint c8wsr "s" 0 0).2 =
      Except.ok (((exploreCands c8wsr [freshEndpoint "A", freshEndpoint "B"]).getD 0
        ((exploreCands c8wsr [freshEndpoint "A", freshEndpoint "B"]).headD
          (freshEndpoint ""))).address) := by
  have h := C8_amended_exploration c8wsr "s" 0 0
    [freshEndpoint "A", freshEndpoint "B"] rfl (by simp) (by decide)
  refine ⟨h.1, (h.2.2.1 (by decide)).1 ?_⟩
  norm_num [exploreCands, freshEndpoint, c8wsr, SetPeriodicExploration,
    AddService, NewSwarmRoute, List.filter]

/-- Claim C6 amended: on the weighted-random path, when the total
weight is zero (baseWeight = 0 and every latency.pos = 0), the drawn
value r = u * 0 = 0 is reached by the very first cumulative sum, so the
call returns the FIRST endpoint in insertion order, not the last; the
fallthrough fallback, when the cumulative scan fails to cross r, does
return the last endpoint in insertion order. -/
theorem C6_amended_zero_weight (sr : SwarmRoute) (svc : String) (i : Nat) (u : ℚ)
    (eps : List Endpoint) (hs : sr.services svc = some eps) (hne : eps ≠ [])
    (hpath : ¬ (0 < sr.exploreEveryN ∧
      (sr.pickCount svc + 1) % sr.exploreEveryN = 0)) :
    (sr.baseWeight = 0 → (∀ ep ∈ eps, ep.latency.pos = 0) →
      (PickEndpoint sr svc i u).2 =
        Except.ok ((eps.headD (freshEndpoint "")).address)) ∧
    (cumPickAux (u * ((weightPairs sr eps).map (fun pr => pr.2)).sum) 0
        (weightPairs sr eps) = none →
      (PickEndpoint sr svc i u).2 =
        Except.ok ((eps.map (fun ep => ep.address)).getLastD "")) := by
  rw [PickEndpoint_nonempty sr svc i u eps hs hne]
  have hres : pickResult sr eps (sr.pickCount svc + 1) i u = weightedChoice sr eps u := by
    unfold pickResult
    rw [if_neg hpath]
  constructor
  · intro hbw hpos
    have hw : ∀ ep ∈ eps, weightOf sr.baseWeight ep.latency.pos ep.error.neg = 0 := by
      intro ep hep
      rw [hbw, hpos ep hep]
      unfold weightOf
      norm_num
    have htotal : ((weightPairs sr eps).map (fun pr => pr.2)).sum = 0 := by
      apply List.sum_eq_zero
      intro x hx
      rcases List.mem_map.mp hx with ⟨pr, hpr, rfl⟩
      unfold weightPairs at hpr
      rcases List.mem_map.mp hpr with ⟨ep, hep, rfl⟩
      exact hw ep hep
    show pickResult sr eps (sr.pickCount svc + 1) i u = _
    rw [hres]
    unfold weightedChoice
    dsimp only
    rw [htotal, mul_zero]
    cases eps with
    | nil => exact absurd rfl hne
    | cons e0 rest =>
      have hw0 : weightOf sr.baseWeight e0.latency.pos e0.error.neg = 0 :=
        hw e0 (List.mem_cons_self _ _)
      unfold weightPairs
      rw [List.map_cons]
      unfold cumPickAux
      rw [hw0, if_pos (by norm_num)]
      rfl
  · intro hcp
    show pickResult sr eps (sr.pickCount svc + 1) i u = _
    rw [hres]
    unfold weightedChoice
    dsimp only
    rw [hcp]

def c6sr : SwarmRoute := SetBaseWeight (AddService NewSwarmRoute "s" ["A", "B"]) 0

/-- Counterexample to claim C6 as stated: with baseWeight = 0 and both
endpoints fresh (total weight W = 0), the weighted path returns the
first endpoint "A", not the last endpoint "B". -/
theorem C6_counterexample :
    c6sr.baseWeight = 0 ∧
    c6sr.services "s" = some [freshEndpoint "A", freshEndpoint "B"] ∧
    (PickEndpoint c6sr "s" 0 (1/2)).2 = Except.ok "A" ∧
    ("A" : String) ≠ "B" := by
  refine ⟨by norm_num [c6sr, SetBaseWeight], rfl, ?_, by decide⟩
  rw [PickEndpoint_nonempty c6sr "s" 0 (1/2)
    [freshEndpoint "A", freshEndpoint "B"] rfl (by simp)]
  show pickResult c6sr [freshEndpoint "A", freshEndpoint "B"]
    (c6sr.pickCount "s" + 1) 0 (1/2) = _
  unfold pickResult
  rw [if_neg (by decide)]
  norm_num [weightedChoice, weightPairs, weightOf, cumPickAux, freshEndpoint,
    c6sr, SetBaseWeight, AddService, NewSwarmRoute]

def c6wsr : SwarmRoute := SetBaseWeight (AddService NewSwarmRoute "w" ["A", "B"]) 0

/-- Witness for the amended C6: the zero-weight draw returns the first
endpoint "A". -/
theorem C6_witness :
    (PickEndpoint c6wsr "w" 0 (1/2)).2 =
      Except.ok (([freshEndpoint "A", freshEndpoint "B"].headD
        (freshEndpoint "")).address) :=
  (C6_amended_zero_weight c6wsr "w" 0 (1/2) [freshEndpoint "A", freshEndpoint "B"]
    rfl (by simp) (by decide)).1
    (by norm_num [c6wsr, SetBaseWeight])
    (by intro ep hep
        rcases List.mem_cons.mp hep with h | h
        · rw [h]
          rfl
        · rw [List.mem_singleton.mp h]
          rfl)
